import Mathlib

/-!
Verification development for the litterbug map and vision simulation engine.

The embedding follows the Python source under litterbug/: map.py (Map,
From_Map, meter-to-pixel conversion, line_of_sight, MissingMapConfigError),
litterbug.py (Litterbug.vision_scan and the ghost-positive generation), and
items/item.py (Item).  Metric coordinates (Python floats) are modelled as
rationals; numpy integer grids as lists of lists of integers; Python
exceptions as an explicit result constructor carrying the exception text.
The rasterizer module litterbug.brensenham is not part of the sources and is
modelled from the specification where noted.
-/

/-- Result of running a piece of Python code: either a value or a raised
exception, identified by its message text. -/
inductive PyResult (α : Type) where
  | ok (v : α)
  | exc (msg : String)
  deriving DecidableEq, Repr

/-- map.py line 11: cell state constant OCCUPIED = 1. -/
def OCCUPIED : ℤ := 1

/-- map.py line 12: cell state constant UNKNOWN = -1. -/
def UNKNOWN : ℤ := -1

/-- map.py line 13: cell state constant FREE = 0. -/
def FREE : ℤ := 0

/-- map.py line 15: raster intensity OCCUPIED_PGM = 0. -/
def OCCUPIED_PGM : ℤ := 0

/-- map.py line 16: raster intensity UNKNOWN_PGM = 205. -/
def UNKNOWN_PGM : ℤ := 205

/-- map.py line 17: raster intensity FREE_PGM = 254. -/
def FREE_PGM : ℤ := 254

/-- Python int() applied to a float: truncation toward zero (floor for
nonnegative arguments, ceiling for negative ones). -/
def pyInt (q : ℚ) : ℤ := if q < 0 then ⌈q⌉ else ⌊q⌋

/-- numpy indexing of one axis by a possibly negative integer: an index i
with 0 <= i < len resolves directly, an index with -len <= i < 0 wraps
around to len + i, and anything else raises IndexError (modelled as none). -/
def npGet {α : Type} (l : List α) (i : ℤ) : Option α :=
  if 0 ≤ i ∧ i < l.length then l[i.toNat]?
  else if -(l.length : ℤ) ≤ i ∧ i < 0 then l[(i + l.length).toNat]?
  else none

/-- numpy indexing of a 2-D array as in map.py line 120, self.map[r, c]:
row first, then column, each with numpy index semantics. -/
def npGet2 (g : List (List ℤ)) (r c : ℤ) : Option ℤ :=
  match npGet g r with
  | none => none
  | some row => npGet row c

/-- Direction of travel along one axis from a to b, +1 or -1 (the sign used
to enumerate the cells between the two endpoints). -/
def stepDir (a b : ℤ) : ℤ := if b < a then -1 else 1

/-- Modelled from the spec: the test that the ideal straight segment from
cell center (x0, y0) to cell center (x1, y1) passes through the unit cell
centered at (c, r).  The segment lies on the line
(y1 - y0) * (x - x0) - (x1 - x0) * (y - y0) = 0, and that line meets the
axis-aligned unit square centered at (c, r) exactly when the value of the
left-hand side at the center is at most half of |x1 - x0| + |y1 - y0| in
absolute value; the test is scaled by 2 to stay in integers. -/
def cellTest (x0 y0 x1 y1 c r : ℤ) : Bool :=
  decide (|2 * ((y1 - y0) * (c - x0) - (x1 - x0) * (r - y0))| ≤ |x1 - x0| + |y1 - y0|)

/-- Modelled from the spec: litterbug.brensenham.define_line is not among
the sources; the spec contracts it to produce, in order from origin to
target and with integer arithmetic only, every grid cell the ideal straight
segment between the two endpoints passes through, with the same cell set in
both directions.  We enumerate the bounding box column by column from the
origin and keep the cells whose unit square the segment crosses
(cellTest).  lineCell is the candidate cell at offsets (i, j) from the
origin, kept exactly when the segment passes through it. -/
def lineCell (x0 y0 x1 y1 : ℤ) (i j : ℕ) : Option (ℤ × ℤ) :=
  let c := x0 + stepDir x0 x1 * (i : ℤ)
  let r := y0 + stepDir y0 y1 * (j : ℤ)
  if cellTest x0 y0 x1 y1 c r then some (c, r) else none

/-- The rasterized cell sequence: the bounding box of the two endpoints is
enumerated from the origin outward (columns in the direction of travel,
rows within a column likewise) and filtered by lineCell. -/
def define_line (x0 y0 x1 y1 : ℤ) : List (ℤ × ℤ) :=
  (List.range ((x1 - x0).natAbs + 1)).flatMap fun i =>
    (List.range ((y1 - y0).natAbs + 1)).filterMap (lineCell x0 y0 x1 y1 i)

/-- map.py lines 24-28: a Map owns the converted grid, the resolution in
meters per pixel, and the metric origin offset. -/
structure Map where
  map : List (List ℤ)
  resolution : ℚ
  origin : ℚ × ℚ
  deriving DecidableEq, Repr

/-- map.py lines 89-99, Map.__meter_to_pixel_coordinates, taken literally.
The body computes int((point[0] - self.point[0]) / self.__resolution) and
self.map.shape[0] - int((point[1] - self.point[1]) / self.__resolution),
but the attributes it reads do not exist: the constructor (lines 25-28)
assigns only self.map, self.resolution and self.origin, never self.point,
and self.__resolution mangles to self._Map__resolution, also never
assigned.  The very first attribute lookup therefore raises AttributeError
before any arithmetic happens, on every input. -/
def Map.meter_to_pixel_coordinates (_ : Map) (_ : ℚ × ℚ) : PyResult (ℤ × ℤ) :=
  .exc "AttributeError: Map object has no attribute point"

/-- The conversion formula of map.py lines 96-99 with the two unassigned
attribute reads repaired to the assigned attributes of the matching role
(self.origin for self.point, self.resolution for self.__resolution):
column int((x - origin.x) / resolution) and row
height - int((y - origin.y) / resolution).  This is NOT the literal source
function (which always raises, see meter_to_pixel_coordinates above); it
only serves to express intended geometric visibility where a claim needs
it as a premise. -/
def Map.meter_to_pixel_intended (m : Map) (p : ℚ × ℚ) : ℤ × ℤ :=
  (pyInt ((p.1 - m.origin.1) / m.resolution),
   (m.map.length : ℤ) - pyInt ((p.2 - m.origin.2) / m.resolution))

/-- map.py lines 119-123: walk the rasterized cells in order and look each
one up in the grid as map[cell[1], cell[0]]; the first OCCUPIED cell makes
the whole query False, a cell that numpy cannot index raises IndexError,
and if no cell is OCCUPIED the query is True. -/
def los_cells (g : List (List ℤ)) : List (ℤ × ℤ) → PyResult Bool
  | [] => .ok true
  | cell :: rest =>
    match npGet2 g cell.2 cell.1 with
    | none => .exc "IndexError"
    | some v => if v = OCCUPIED then .ok false else los_cells g rest

/-- map.py lines 101-123, Map.line_of_sight, taken literally: convert the
origin (line 110), then the target (line 111), then rasterize with
define_line and scan the traversed cells for OCCUPIED.  Exceptions raised
by the conversion propagate; since the literal conversion always raises
AttributeError, so does every literal line-of-sight query. -/
def Map.line_of_sight (m : Map) (origin target : ℚ × ℚ) : PyResult Bool :=
  match m.meter_to_pixel_coordinates origin with
  | .exc e => .exc e
  | .ok o =>
    match m.meter_to_pixel_coordinates target with
    | .exc e => .exc e
    | .ok t => los_cells m.map (define_line o.1 o.2 t.1 t.2)

/-- Line of sight over the repaired (intended) conversion: the visibility
the code of lines 101-123 would compute were the attribute slip repaired.
Used only to express intended visibility as a premise. -/
def Map.line_of_sight_intended (m : Map) (origin target : ℚ × ℚ) : PyResult Bool :=
  los_cells m.map
    (define_line (m.meter_to_pixel_intended origin).1 (m.meter_to_pixel_intended origin).2
      (m.meter_to_pixel_intended target).1 (m.meter_to_pixel_intended target).2)

/-- Content of the YAML metadata resource next to the raster, as read in
map.py lines 67-77: an optional resolution field and an optional origin
field carrying an (x, y) pair; a missing key raises KeyError, modelled by
none. -/
structure MapYaml where
  resolution : Option ℚ
  origin : Option (ℚ × ℚ)
  deriving DecidableEq, Repr

/-- Outcome of Map.From_Map: a Map, a MissingMapConfigError carrying the
aggregated list of missing field names (map.py lines 126-137), or the IO
error from opening a metadata file that does not exist. -/
inductive LoadResult where
  | ok (m : Map)
  | missingMapConfig (missing_fields : List String)
  | ioError
  deriving DecidableEq, Repr

/-- One np.where(grid == test, repl, grid) pass as in map.py lines 83-85:
every cell equal to test is replaced by repl, every other cell is kept. -/
def np_where_eq (g : List (List ℤ)) (test repl : ℤ) : List (List ℤ) :=
  g.map (List.map fun v => if v = test then repl else v)

/-- map.py lines 83-85: the three sequential np.where passes converting the
raster intensities, in source order 0 to OCCUPIED, then 254 to FREE, then
205 to UNKNOWN. -/
def raster_translate (g : List (List ℤ)) : List (List ℤ) :=
  np_where_eq (np_where_eq (np_where_eq g OCCUPIED_PGM OCCUPIED) FREE_PGM FREE) UNKNOWN_PGM UNKNOWN

/-- map.py lines 30-87, Map.From_Map.  The raster is the already decoded
pgm array; yamlData models the accompanying metadata resource (none when
the file does not exist, in which case opening it raises).  The YAML file
is opened only when resolution or robot_offset is not supplied (line 62);
missing fields are collected into a list, resolution first then origin, and
MissingMapConfigError is raised with the whole list (lines 66-80);
otherwise the converted map is built (lines 83-87). -/
def Map.From_Map (raster : List (List ℤ)) (yamlData : Option MapYaml)
    (robot_offset : Option (ℚ × ℚ)) (resolution : Option ℚ) : LoadResult :=
  match resolution, robot_offset with
  | some res, some off => .ok ⟨raster_translate raster, res, off⟩
  | res?, off? =>
    match yamlData with
    | none => .ioError
    | some data =>
      let res2 := res?.orElse fun _ => data.resolution
      let off2 := off?.orElse fun _ => data.origin
      let missing_fields :=
        (if res2.isNone then ["resolution"] else []) ++ (if off2.isNone then ["origin"] else [])
      match res2, off2 with
      | some r, some o => .ok ⟨raster_translate raster, r, o⟩
      | _, _ => .missingMapConfig missing_fields

/-- items/item.py lines 7-33: an Item carries an id (generated when absent,
here always supplied), a metric origin, a 3-tuple orientation, a label, and
a model path. -/
structure Item where
  id : String
  origin : ℚ × ℚ
  orientation : ℚ × ℚ × ℚ
  label : String
  model_path : String
  deriving DecidableEq, Repr

/-- The vision parameters read from configuration in litterbug.py lines
74-92, one field per config key. -/
structure VisionConfig where
  fps : ℚ
  fov : ℚ
  range : ℚ
  minimum_range : ℚ
  enable_false_negatives : Bool
  false_negative_probability : ℚ
  enable_false_positives : Bool
  ghost_positive_rate : ℚ
  mislabel_probability : ℚ
  deriving DecidableEq, Repr

/-- litterbug.py lines 89-91: the per-tick ghost probability
(1 / ghost_positive_rate) * (1 / fps). -/
def ghost_positive_probability (cfg : VisionConfig) : ℚ :=
  (1 / cfg.ghost_positive_rate) * (1 / cfg.fps)

/-- litterbug.py lines 155-184, the registry loop of vision_scan.  The
source iterates with for item in items where items is the registry dict
itself, so each loop value is a KEY of the dict, a str; the first statement
of the body evaluates item.origin (line 156), an attribute a str does not
have, so every iteration raises AttributeError before anything else runs.
The remainder of the body (line-of-sight test, false-negative draw,
mislabel branch) is unreachable for every element and is therefore not
reachable in the model either.  An empty registry skips the loop and keeps
the empty broadcast list. -/
def scan_items : List String → PyResult (List Item)
  | [] => .ok []
  | _ :: _ => .exc "AttributeError: str has no attribute origin"

/-- random.choice(seq) as used in litterbug.py lines 170 and 221: on an
empty sequence it raises IndexError; otherwise it consumes one uniform draw
and picks the corresponding element. -/
def pyChoice {α : Type} (xs : List α) (draws : List ℚ) : PyResult (α × List ℚ) :=
  match xs with
  | [] => .exc "IndexError: cannot choose from an empty sequence"
  | x :: rest =>
    match draws with
    | [] => .exc "OutOfDraws"
    | u :: ds => .ok ((x :: rest).getD (pyInt (u * ((x :: rest).length : ℚ))).toNat x, ds)

/-- Outcome of the inner position-sampling loop of __ghost_positives
(litterbug.py lines 229-259). -/
inductive GhostInner where
  | raised (msg : String)
  | exhausted (rest : List ℚ)
  | outOfDraws
  deriving DecidableEq, Repr

/-- litterbug.py lines 229-259, the inner while attempts < 25 loop of
__ghost_positives.  Each pass consumes two uniform draws (the angle within
plus or minus the field of view and the distance within the sensing range)
and projects a candidate spot from the robot; the projection runs through
math.cos and math.sin, which have no exact rational embedding, so it is
abstracted as the project parameter, and every theorem below holds for all
projections.  Faithful to the source, the attempts counter is NEVER
incremented inside the loop: a pass whose spot has no line of sight just
runs the loop again with attempts unchanged, so the attempts < 25 guard can
only fail if the loop is entered with attempts already at 25.  A spot WITH
line of sight would reach the Item(...) construction of lines 251-257,
which passes the keyword arguments name and model that Item.__init__ does
not accept (items/item.py lines 16-23), raising TypeError; under the
literal line_of_sight, which itself raises AttributeError on every call,
both ok branches are unreachable but are kept as the source text has them.
The loop is driven by the finite draw stream; exhausting the stream
(outOfDraws) means the loop was still running after consuming every
supplied draw. -/
def ghost_attempt_loop (m : Map) (loc : ℚ × ℚ) (project : ℚ → ℚ → ℚ × ℚ)
    (attempts : ℕ) : List ℚ → GhostInner
  | [] => if attempts < 25 then .outOfDraws else .exhausted []
  | [u] => if attempts < 25 then .outOfDraws else .exhausted [u]
  | u1 :: u2 :: rest =>
    if attempts < 25 then
      match m.line_of_sight loc (project u1 u2) with
      | .exc e => .raised e
      | .ok true => .raised "TypeError: Item got an unexpected keyword argument"
      | .ok false => ghost_attempt_loop m loc project attempts rest
    else .exhausted (u1 :: u2 :: rest)

/-- Outcome of __ghost_positives (litterbug.py lines 202-263). -/
inductive GhostOut where
  | retNone
  | raised (msg : String)
  | outOfDraws
  deriving DecidableEq, Repr

/-- litterbug.py lines 202-263, Litterbug.__ghost_positives.  The outer
while True loop first draws against the mislabel probability (line 215) and
breaks when the probability exceeds the draw; otherwise it picks a label
with random.choice (line 221) and runs the inner sampling loop; an
unconditional break at line 263 ends the outer loop after one pass either
way.  The function builds a local to_broadcast list but has NO return
statement, so every non-raising path returns None (retNone). -/
def ghost_positives (cfg : VisionConfig) (m : Map) (loc : ℚ × ℚ)
    (item_types : List String) (project : ℚ → ℚ → ℚ × ℚ) (draws : List ℚ) : GhostOut :=
  match draws with
  | [] => .outOfDraws
  | u :: rest =>
    if cfg.mislabel_probability > u then .retNone
    else
      match pyChoice item_types rest with
      | .exc e => .raised e
      | .ok (_, rest2) =>
        match ghost_attempt_loop m loc project 0 rest2 with
        | .raised e => .raised e
        | .outOfDraws => .outOfDraws
        | .exhausted _ => .retNone

/-- Outcome of one vision_scan tick: the emitted detections (one sink call
per list element, whether the callback or the broadcast topic is used), a
raised exception, or an exhausted draw stream. -/
inductive ScanOut where
  | emitted (items : List Item)
  | raised (msg : String)
  | outOfDraws
  deriving DecidableEq, Repr

/-- litterbug.py lines 138-200, Litterbug.vision_scan: run the registry
loop (lines 155-184) over the snapshot of the registry, then, when false
positives are enabled and the derived ghost probability is positive (line
188), extend the broadcast list with the result of __ghost_positives (lines
189-190).  Because __ghost_positives returns None on every non-raising
path, the += on line 190 raises TypeError whenever it is reached.  Finally
each broadcast item is delivered by one sink call (lines 196-200). -/
def vision_scan (cfg : VisionConfig) (m : Map) (loc : ℚ × ℚ)
    (items : List (String × Item)) (item_types : List String)
    (project : ℚ → ℚ → ℚ × ℚ) (draws : List ℚ) : ScanOut :=
  match scan_items (items.map Prod.fst) with
  | .exc e => .raised e
  | .ok to_broadcast =>
    if cfg.enable_false_positives ∧ ghost_positive_probability cfg > 0 then
      match ghost_positives cfg m loc item_types project draws with
      | .raised e => .raised e
      | .outOfDraws => .outOfDraws
      | .retNone => .raised "TypeError: NoneType is not iterable"
    else .emitted to_broadcast

/-- A one-cell map whose only cell is FREE (resolution 1, origin 0). -/
def mapFree1 : Map := ⟨[[0]], 1, (0, 0)⟩

/-- The metric point falling in grid cell (0, 0) of the unit-resolution
one-cell map under the intended conversion. -/
def pHalf : ℚ × ℚ := (1/2, 3/2)

/-- Configuration for the one-visible-item scenario: false-negative and
false-positive simulation both disabled. -/
def cfgVisOnly : VisionConfig := ⟨10, 45, 8, 0, false, 0, false, 5, 0⟩

/-- Configuration with the stochastic features enabled: false negatives and
false positives on, ghost rate and fps 1 so the per-tick ghost probability
is 1, mislabel probability 1. -/
def cfgAllOn : VisionConfig := ⟨1, 45, 8, 0, true, 1/2, true, 1, 1⟩

/-- The single registry item of the one-visible-item scenario, located at
pHalf, which is also where the robot stands. -/
def itemBall : Item := ⟨"ball-1", pHalf, (0, 0, 0), "ball", ""⟩

/-- The candidate cell at offset (0, 0) is the origin cell itself, and it
always passes the crossing test. -/
lemma lineCell_zero (x0 y0 x1 y1 : ℤ) : lineCell x0 y0 x1 y1 0 0 = some (x0, y0) := by
  unfold lineCell
  simp only [Nat.cast_zero, mul_zero, add_zero]
  rw [if_pos]
  simp only [cellTest, sub_self, mul_zero, abs_zero, decide_eq_true_eq]
  positivity

/-- The degenerate rasterization: a segment whose endpoints coincide
traverses exactly its own cell. -/
lemma define_line_self (x y : ℤ) : define_line x y x y = [(x, y)] := by
  have h1 : List.range 1 = [0] := rfl
  simp [define_line, h1, List.filterMap_cons, lineCell_zero]

/-- A rasterized segment always starts at the cell of its origin. -/
lemma define_line_head (x0 y0 x1 y1 : ℤ) :
    ∃ rest, define_line x0 y0 x1 y1 = (x0, y0) :: rest :=
  ⟨_, by
    unfold define_line
    rw [List.range_succ_eq_map ((x1 - x0).natAbs), List.flatMap_cons,
        List.range_succ_eq_map ((y1 - y0).natAbs),
        List.filterMap_cons_some (lineCell_zero x0 y0 x1 y1), List.cons_append]⟩

/-- The cells enumerated along one axis are exactly the integers between
the two endpoints. -/
lemma coord_range (a b c : ℤ) :
    (∃ i : ℕ, i < (b - a).natAbs + 1 ∧ c = a + stepDir a b * (i : ℤ)) ↔
      (min a b ≤ c ∧ c ≤ max a b) := by
  unfold stepDir
  rcases lt_or_le b a with h | h
  · rw [if_pos h, min_eq_right h.le, max_eq_left h.le]
    constructor
    · rintro ⟨i, hi, rfl⟩
      omega
    · rintro ⟨h1, h2⟩
      exact ⟨(a - c).toNat, by omega, by omega⟩
  · rw [if_neg (not_lt.mpr h), min_eq_left h, max_eq_right h]
    constructor
    · rintro ⟨i, hi, rfl⟩
      omega
    · rintro ⟨h1, h2⟩
      exact ⟨(c - a).toNat, by omega, by omega⟩

/-- Membership in the rasterized cell list: exactly the cells inside the
bounding box of the endpoints whose unit square the segment crosses. -/
lemma mem_define_line {x0 y0 x1 y1 c r : ℤ} :
    (c, r) ∈ define_line x0 y0 x1 y1 ↔
      (min x0 x1 ≤ c ∧ c ≤ max x0 x1 ∧ min y0 y1 ≤ r ∧ r ≤ max y0 y1 ∧
        cellTest x0 y0 x1 y1 c r = true) := by
  unfold define_line lineCell
  simp only [List.mem_flatMap, List.mem_filterMap, List.mem_range]
  constructor
  · rintro ⟨i, hi, j, hj, hcell⟩
    split at hcell
    · rename_i ht
      obtain ⟨rfl, rfl⟩ := Prod.mk.injEq .. ▸ Option.some.inj hcell
      refine ⟨?_, ?_, ?_, ?_, ht⟩
      · exact ((coord_range x0 x1 _).mp ⟨i, hi, rfl⟩).1
      · exact ((coord_range x0 x1 _).mp ⟨i, hi, rfl⟩).2
      · exact ((coord_range y0 y1 _).mp ⟨j, hj, rfl⟩).1
      · exact ((coord_range y0 y1 _).mp ⟨j, hj, rfl⟩).2
    · exact absurd hcell (by simp)
  · rintro ⟨h1, h2, h3, h4, ht⟩
    obtain ⟨i, hi, hc⟩ := (coord_range x0 x1 c).mpr ⟨h1, h2⟩
    obtain ⟨j, hj, hr⟩ := (coord_range y0 y1 r).mpr ⟨h3, h4⟩
    refine ⟨i, hi, j, hj, ?_⟩
    rw [← hc, ← hr, if_pos ht]

/-- The crossing test does not depend on the direction of the segment. -/
lemma cellTest_symm (x0 y0 x1 y1 c r : ℤ) :
    cellTest x1 y1 x0 y0 c r = cellTest x0 y0 x1 y1 c r := by
  simp only [cellTest, decide_eq_decide]
  have e1 : 2 * ((y0 - y1) * (c - x1) - (x0 - x1) * (r - y1)) =
      -(2 * ((y1 - y0) * (c - x0) - (x1 - x0) * (r - y0))) := by ring
  rw [e1, abs_neg, abs_sub_comm x0 x1, abs_sub_comm y0 y1]

/-- Swapping origin and target keeps the rasterized cell set (the ordered
sequences differ, the sets do not). -/
lemma mem_define_line_symm (x0 y0 x1 y1 : ℤ) (p : ℤ × ℤ) :
    p ∈ define_line x1 y1 x0 y0 ↔ p ∈ define_line x0 y0 x1 y1 := by
  obtain ⟨c, r⟩ := p
  rw [mem_define_line, mem_define_line, cellTest_symm,
    min_comm x1 x0, max_comm x1 x0, min_comm y1 y0, max_comm y1 y0]

lemma pyInt_half : pyInt (1/2) = 0 := by unfold pyInt; norm_num

lemma pyInt_threehalf : pyInt (3/2) = 1 := by unfold pyInt; norm_num

/-- The intended conversion over a unit-resolution origin-zero one-row map
reduces to pyInt and the row flip against height 1. -/
lemma pix_len1 (m : Map) (hlen : m.map.length = 1) (hres : m.resolution = 1)
    (horig : m.origin = (0, 0)) (x y : ℚ) :
    m.meter_to_pixel_intended (x, y) = (pyInt x, 1 - pyInt y) := by
  unfold Map.meter_to_pixel_intended
  rw [hlen, hres, horig]
  norm_num

lemma pix_mapFree1_pHalf : mapFree1.meter_to_pixel_intended pHalf = (0, 0) := by
  rw [pHalf, pix_len1 mapFree1 rfl rfl rfl, pyInt_half, pyInt_threehalf]; norm_num

/-- C2 (code evaluated): every degenerate line-of-sight query raises
AttributeError instead of returning true: converting the origin point reads
the never-assigned self.point attribute (map.py line 97) and raises before
any cell is rasterized or checked.  (Even under the obvious attribute
repair the walk would still check the one traversed cell, the cell of the
point itself, so a point standing in an OCCUPIED cell would yield false;
the literal program never gets that far.) -/
theorem C2_degenerate_query_raises (m : Map) (p : ℚ × ℚ) :
    m.line_of_sight p p = .exc "AttributeError: Map object has no attribute point" := rfl

/-- C3 (code evaluated): there is no visibility result to swap: both
directions of every query raise AttributeError in the conversion of their
origin point, before rasterization, so the program never produces the
booleans whose equality the claim asserts. -/
theorem C3_no_result_to_swap (m : Map) (a b : ℚ × ℚ) :
    m.line_of_sight a b = .exc "AttributeError: Map object has no attribute point" ∧
      m.line_of_sight b a = .exc "AttributeError: Map object has no attribute point" :=
  ⟨rfl, rfl⟩

/-- C4 (code evaluated): line_of_sight raises on EVERY input, valid or not:
the conversion raises AttributeError before the grid is ever indexed, so no
query returns a boolean and no out-of-bounds blocking policy exists. -/
theorem C4_query_never_returns (m : Map) (a b : ℚ × ℚ) :
    m.line_of_sight a b = .exc "AttributeError: Map object has no attribute point" ∧
      ∀ v : Bool, m.line_of_sight a b ≠ .ok v :=
  ⟨rfl, fun _ h => PyResult.noConfusion h⟩

/-- C5 (code evaluated): the conversion raises AttributeError on every map
and every metric point: map.py lines 97-98 read self.point and
self.__resolution, attributes the constructor never assigns, so the first
lookup raises before any arithmetic and no column or row is ever produced,
let alone the floor formula of the claim.  (The formula in the source text
also uses int(), truncation toward zero, where the claim demands flooring
for negative offsets.) -/
theorem C5_conversion_always_raises (m : Map) (p : ℚ × ℚ) :
    m.meter_to_pixel_coordinates p =
      .exc "AttributeError: Map object has no attribute point" := rfl

/-- C1 (code evaluated at the failing input): the single item at pHalf is
geometrically visible from the robot at pHalf (line of sight under the
intended conversion holds), yet the tick raises AttributeError instead of
reporting the item, because the registry loop iterates the keys of the
dict: the loop body reads item.origin on a str.  This holds for every
projection and every draw stream: the failure needs no randomness. -/
theorem C1_visible_item_tick_raises (project : ℚ → ℚ → ℚ × ℚ) (draws : List ℚ) :
    mapFree1.line_of_sight_intended pHalf itemBall.origin = .ok true ∧
      vision_scan cfgVisOnly mapFree1 pHalf [("ball-1", itemBall)] ["ball"] project draws =
        .raised "AttributeError: str has no attribute origin" := by
  constructor
  · show mapFree1.line_of_sight_intended pHalf pHalf = .ok true
    unfold Map.line_of_sight_intended
    rw [pix_mapFree1_pHalf]
    decide
  · rfl

/-- C6 (code evaluated at the failing input): a ghost-positive cycle that
enters the inner sampling loop terminates by CRASHING on its very first
attempt, not by giving up after 25 attempts: line_of_sight raises
AttributeError inside the loop body.  And the give-up branch is unreachable
from attempts = 0 on every draw stream regardless, because the source never
increments the counter.  Both parts hold for every map, robot location and
projection. -/
theorem C6_ghost_inner_crashes_not_gives_up (m : Map) (loc : ℚ × ℚ)
    (project : ℚ → ℚ → ℚ × ℚ) :
    (∀ (u1 u2 : ℚ) (rest : List ℚ),
      ghost_attempt_loop m loc project 0 (u1 :: u2 :: rest) =
        .raised "AttributeError: Map object has no attribute point") ∧
      ∀ (draws rest2 : List ℚ), ghost_attempt_loop m loc project 0 draws ≠ .exhausted rest2 := by
  constructor
  · intro u1 u2 rest
    rfl
  · intro draws rest2
    rcases draws with _ | ⟨u, _ | ⟨v, rest3⟩⟩ <;>
      simp [ghost_attempt_loop, Map.line_of_sight, Map.meter_to_pixel_coordinates]

/-- C7 (code evaluated at the failing input): with false positives enabled
and per-tick ghost probability 1, a tick over the empty registry and empty
label set raises TypeError: __ghost_positives has no return statement, so
the += of its None result fails (and when the first draw does not break,
random.choice on the empty label list raises IndexError instead). -/
theorem C7_empty_registry_tick_raises (project : ℚ → ℚ → ℚ × ℚ) :
    vision_scan cfgAllOn mapFree1 pHalf [] [] project [1/2] =
      .raised "TypeError: NoneType is not iterable" := by
  have hg : ghost_positives cfgAllOn mapFree1 pHalf [] project [1/2] = GhostOut.retNone := by
    unfold ghost_positives
    show (if cfgAllOn.mislabel_probability > (1/2 : ℚ) then GhostOut.retNone
        else match pyChoice ([] : List String) ([] : List ℚ) with
          | PyResult.exc e => GhostOut.raised e
          | PyResult.ok (_, rest2) =>
            match ghost_attempt_loop mapFree1 pHalf project 0 rest2 with
            | GhostInner.raised e => GhostOut.raised e
            | GhostInner.outOfDraws => GhostOut.outOfDraws
            | GhostInner.exhausted _ => GhostOut.retNone) = GhostOut.retNone
    rw [if_pos (show cfgAllOn.mislabel_probability > (1/2 : ℚ) by norm_num [cfgAllOn])]
  simp only [vision_scan, List.map_nil, scan_items]
  rw [if_pos ⟨rfl, by norm_num [ghost_positive_probability, cfgAllOn]⟩, hg]

/-- C8: when the metadata resource is readable but the configuration is
unresolvable, From_Map fails with MissingMapConfigError naming every field
that could not be resolved from either the direct arguments or the
metadata, resolution first then origin, aggregated before raising. -/
theorem C8_missing_fields_aggregated (raster : List (List ℤ)) (data : MapYaml)
    (robot_offset : Option (ℚ × ℚ)) (resolution : Option ℚ)
    (h : (resolution.orElse fun _ => data.resolution).isNone ∨
      (robot_offset.orElse fun _ => data.origin).isNone) :
    Map.From_Map raster (some data) robot_offset resolution =
      .missingMapConfig
        ((if (resolution.orElse fun _ => data.resolution).isNone then ["resolution"] else []) ++
          (if (robot_offset.orElse fun _ => data.origin).isNone then ["origin"] else [])) := by
  obtain ⟨dres, dorig⟩ := data
  rcases resolution with _ | r <;> rcases robot_offset with _ | o <;>
    rcases dres with _ | dr <;> rcases dorig with _ | dg <;>
    simp_all [Map.From_Map, Option.orElse]

/-- Witness for C8: with no direct arguments and a metadata resource
carrying neither field, the error names both fields. -/
theorem C8_missing_fields_aggregated_witness :
    ((Option.none.orElse fun _ => (⟨none, none⟩ : MapYaml).resolution).isNone ∨
      (Option.none.orElse fun _ => (⟨none, none⟩ : MapYaml).origin).isNone) ∧
      Map.From_Map [[0]] (some ⟨none, none⟩) none none =
        .missingMapConfig ["resolution", "origin"] := by
  refine ⟨Or.inl rfl, ?_⟩
  have h := C8_missing_fields_aggregated [[0]] ⟨none, none⟩ none none (Or.inl rfl)
  simpa using h

/-- C9 (amended): the load maps the three known intensities 0, 254, 205 to
OCCUPIED, FREE, UNKNOWN respectively and leaves every other intensity
unchanged in the grid; no error is raised for unrecognized intensities. -/
theorem C9_raster_translate_pointwise (g : List (List ℤ)) :
    raster_translate g = g.map (List.map fun v =>
      if v = OCCUPIED_PGM then OCCUPIED
      else if v = FREE_PGM then FREE
      else if v = UNKNOWN_PGM then UNKNOWN
      else v) := by
  unfold raster_translate np_where_eq
  simp only [List.map_map]
  congr 1
  funext row
  simp only [Function.comp_apply, List.map_map]
  congr 1
  funext v
  simp only [Function.comp_apply]
  by_cases h1 : v = OCCUPIED_PGM
  · subst h1
    decide
  · by_cases h2 : v = FREE_PGM
    · subst h2
      decide
    · by_cases h3 : v = UNKNOWN_PGM
      · subst h3
        decide
      · simp [h1, h2, h3]

/-- Counterexample to C9 as stated: a raster containing the unrecognized
intensity 100 does not fail; it loads into a Map whose grid keeps the raw
value 100. -/
theorem C9_unknown_intensity_loads :
    Map.From_Map [[100]] none (some (0, 0)) (some 1) = .ok ⟨[[100]], 1, (0, 0)⟩ := rfl

/-- C10: when both the resolution and the origin offset are supplied
directly, the metadata resource is never read: the result is ok for every
metadata value including an absent file, determined solely by the raster
and the two arguments, and can never be MissingMapConfigError. -/
theorem C10_direct_args_ignore_yaml (raster : List (List ℤ)) (yamlData : Option MapYaml)
    (off : ℚ × ℚ) (res : ℚ) :
    Map.From_Map raster yamlData (some off) (some res) =
      .ok ⟨raster_translate raster, res, off⟩ := rfl
